import Mathlib

/-!
Verification development for the EarlFan/mfem example and miniapp sources:
`examples/ginkgo/ex1lor.cpp` and `miniapps/plasma/transport_solver.cpp`.

The C++ is embedded shallowly: command-line dispatch and output phases of the
`ex1lor` driver become pure Lean functions; the stateful operator classes of
the transport solver become explicit state records with update functions; the
Euler-flux kernels (`ComputePressure`, `ComputeFlux`, `ComputeFluxDotN`,
`ComputeMaxCharSpeed`, `RiemannSolver::Eval`) become functions on real-valued
state vectors.  C++ `double` arithmetic is modelled over `ℝ` (exact reals);
values that are only stored and compared, never computed with, use `ℚ`/`ℤ`.
-/

/- ------------------------------------------------------------------ -/
/- Part 1: the ex1lor driver (examples/ginkgo/ex1lor.cpp)             -/
/- ------------------------------------------------------------------ -/

/-- The preconditioner choices of `ex1lor.cpp` line 149:
`enum PCType { NONE, GKO_BLOCK_JACOBI, GKO_ILU, MFEM_GS }`. -/
inductive PCType where
  | NONE
  | GKO_BLOCK_JACOBI
  | GKO_ILU
  | MFEM_GS
deriving DecidableEq, Repr

/-- The preconditioner-type dispatch of `ex1lor.cpp` lines 150-164: the
string `pc_type` selects a `PCType` and the boolean `pc` (which starts
`true` and is cleared only for `"none"`); any other string reaches
`mfem_error("Invalid Preconditioner specified")` and the function returns. -/
def ex1lorSelectPC (pc_type : String) : Except String (PCType × Bool) :=
  if pc_type = "gko:bj" then .ok (.GKO_BLOCK_JACOBI, true)
  else if pc_type = "gko:ilu" then .ok (.GKO_ILU, true)
  else if pc_type = "mfem:gs" then .ok (.MFEM_GS, true)
  else if pc_type = "none" then .ok (.NONE, false)
  else .error "Invalid Preconditioner specified"

/-- The messages of every `mfem_error` call site in the two source files of
this repository.  `ex1lor.cpp` line 162 is the only such call;
`transport_solver.cpp` contains none. -/
def mfem_error_sites : List String := ["Invalid Preconditioner specified"]

/-- The value of the `output_mesh` variable of `ex1lor.cpp` line 116.  It is
initialized to `false` and no `args.AddOption` call registers it, so it keeps
this value in every run. -/
def ex1lor_output_mesh : Bool := false

/-- The command-line options registered by `ex1lor.cpp` lines 119-140, as
pairs of the short flag and the program variable the flag is bound to. -/
def ex1lorOptions : List (String × String) :=
  [("-m", "mesh_file"), ("-o", "order"), ("-sc", "static_cond"),
   ("-pa", "pa"), ("-d", "device_config"), ("-vis", "visualization"),
   ("-pc-type", "pc_type"), ("-pc-so", "pc_storage_opt"),
   ("-pc-acc", "pc_acc"), ("-pc-mbs", "pc_max_bs")]

/-- The files written by step 13 of `ex1lor.cpp` (lines 409-428): inside
`if (output_mesh)` the driver writes `refined.mesh` and `sol.gf`, and inside
the nested `if (pc)` additionally `lor-refined.mesh` and `lor-mat.dat`. -/
def ex1lorOutputFiles (output_mesh pc : Bool) : List String :=
  if output_mesh then
    ["refined.mesh", "sol.gf"] ++
      (if pc then ["lor-refined.mesh", "lor-mat.dat"] else [])
  else []

/-- Step 14 of `ex1lor.cpp` (lines 430-438): when `visualization` is set the
solution is sent over a socket stream to host `localhost`, port `19916`. -/
def ex1lorVisSocket (visualization : Bool) : Option (String × Nat) :=
  if visualization then some ("localhost", 19916) else none

/-- Description of the LOR preconditioner object built in step 11 of
`ex1lor.cpp` (lines 332-390).  Only the `GKO_BLOCK_JACOBI` branch reads the
tuning parameters `pc_storage_opt`, `pc_acc`, `pc_max_bs`.  The `double`
accuracy and `int` block size are only stored, so they are modelled as
`ℚ` and `ℤ`. -/
inductive PrecondDesc where
  | gkoBJ (storage_opt : String) (acc : ℚ) (max_bs : ℤ)
  | gkoILU
  | mfemGS
  | noPC
deriving DecidableEq, Repr

/-- Observable behaviour of one `ex1lor` run after the solve: the
preconditioner that was built, the GLVis socket (if any), and the files
written. -/
structure Ex1lorTrace where
  precond : PrecondDesc
  socket : Option (String × Nat)
  files : List String
deriving DecidableEq, Repr

/-- The behaviour of `ex1lor`'s `main` as a function of the preconditioner
selector, the three Block-Jacobi tuning parameters and the visualization
flag: parse `pc_type` (lines 150-164), build the preconditioner of the
selected branch (lines 332-397), then run the output steps 13-14. -/
def ex1lorRun (pc_type pc_storage_opt : String) (pc_acc : ℚ) (pc_max_bs : ℤ)
    (visualization : Bool) : Except String Ex1lorTrace :=
  match ex1lorSelectPC pc_type with
  | .error e => .error e
  | .ok (pc_choice, pc) =>
      let M : PrecondDesc :=
        match pc_choice with
        | .GKO_BLOCK_JACOBI => .gkoBJ pc_storage_opt pc_acc pc_max_bs
        | .GKO_ILU => .gkoILU
        | .MFEM_GS => .mfemGS
        | .NONE => .noPC
      .ok { precond := M,
            socket := ex1lorVisSocket visualization,
            files := ex1lorOutputFiles ex1lor_output_mesh pc }

/- ------------------------------------------------------------------ -/
/- Part 2: DGAdvectionDiffusionTDO (transport_solver.cpp)             -/
/- ------------------------------------------------------------------ -/

/-- The `MFEM_VERIFY(imex_, ...)` guard at the entry of
`DGAdvectionDiffusionTDO::ExplicitMult` (transport_solver.cpp line 688):
when `imex_` is false the macro raises the given message, otherwise the
method proceeds (the body delegates to library mass-solver calls). -/
def ExplicitMultGuard (imex_ : Bool) : Except String Unit :=
  if imex_ then .ok ()
  else .error "Unexpected call to ExplicitMult for non-IMEX method!"

/-- The time-step-dependent data of `DGAdvectionDiffusionTDO`: the stored
step `dt_` and the scalar `A` factors of the product coefficients
`dtdCoef_`, `dtDCoef_`, `dtNegVCoef_` (each `none` while the corresponding
pointer is NULL). -/
structure DGAdvDiffCoefState where
  dt_ : ℝ
  dtdCoef : Option ℝ
  dtDCoef : Option ℝ
  dtNegVCoef : Option ℝ

/-- The coefficient-update block of `DGAdvectionDiffusionTDO::ImplicitSolve`
(transport_solver.cpp lines 725-733): when `fabs(dt - dt_) > 1e-4 * dt_`
each non-NULL product coefficient gets `SetAConst(dt)` and `dt_ = dt`;
otherwise nothing changes. -/
noncomputable def DGAdvDiffCoefState.implicitSolveUpdate (dt : ℝ)
    (st : DGAdvDiffCoefState) : DGAdvDiffCoefState :=
  if |dt - st.dt_| > 1e-4 * st.dt_ then
    { dt_ := dt,
      dtdCoef := st.dtdCoef.map fun _ => dt,
      dtDCoef := st.dtDCoef.map fun _ => dt,
      dtNegVCoef := st.dtNegVCoef.map fun _ => dt }
  else st

/- ------------------------------------------------------------------ -/
/- Part 3: DiffusionTDO::initSolver (transport_solver.cpp 3350-3396)  -/
/- ------------------------------------------------------------------ -/

/-- The two solver kinds `DiffusionTDO::initSolver` can build: `HyprePCG`
when `dg_sigma_ == -1.0`, `HypreGMRES` otherwise. -/
inductive SolverKind where
  | pcg
  | gmres
deriving DecidableEq, Repr

/-- The time-step-dependent data of `DiffusionTDO`: the stored step, the
scalar factor of `dtNuCoef_`, and the owned heap objects `M_`, `amg_`,
`solver_`.  A heap object is `none` while its pointer is NULL; a rebuilt
`M_` gets a fresh generation number, and `amg_`/`solver_` record the
generation of the `M_` they were built from. -/
structure DiffusionTDOState where
  dt_ : ℝ
  dtNuCoef : ℝ
  M : Option Nat
  amg : Option Nat
  solver : Option (SolverKind × Nat)

/-- `DiffusionTDO::initSolver` (transport_solver.cpp lines 3350-3396): when
`fabs(dt - dt_) > 1e-4 * dt` the stored step, `dtNuCoef_` and `M_` are
rebuilt (`newM`); then `amg_` is rebuilt from the current `M_` when it is
NULL or `newM` holds, and likewise `solver_` (a PCG when `dg_sigma_ == -1.0`,
a GMRES otherwise), preconditioned by `amg_`.  (When `amg_` or `solver_` is
NULL but `M_` is also NULL the C++ dereferences a NULL `M_`; that state is
outside the scope of the claims below.) -/
noncomputable def DiffusionTDOState.initSolver (dg_sigma dt : ℝ)
    (st : DiffusionTDOState) : DiffusionTDOState :=
  let newM : Prop := |dt - st.dt_| > 1e-4 * dt
  let st1 := if newM then
      { st with dt_ := dt, dtNuCoef := dt, M := some (st.M.getD 0 + 1) }
    else st
  let st2 := if st1.amg = none ∨ newM then { st1 with amg := st1.M } else st1
  if st2.solver = none ∨ newM then
    { st2 with
      solver := some (if dg_sigma = -1.0 then SolverKind.pcg else SolverKind.gmres,
                      st2.M.getD 0) }
  else st2

/- ------------------------------------------------------------------ -/
/- Part 4: DGTransportTDO::ImplicitSolve grid-function bindings       -/
/- ------------------------------------------------------------------ -/

/-- The grid-function rebinding performed by `DGTransportTDO::ImplicitSolve`
(transport_solver.cpp lines 1223-1280) on `n + 1` grid functions, with
`offs` the `offsets_` array (of size `n + 2`).  A binding is the address of
the data array a grid function references; `MakeRef(&fes_, p)` sets it to
`p`.  The method records `prev_y = yGF_[0].GetData()`, re-points every
`yGF_[i]` to `yaddr + offs i`, records `prev_k = kGF_[0].GetData()`,
re-points every `kGF_[i]` to `kaddr + offs i`, runs the Newton solve, and
restores `yGF_[i]` to `prev_y + offs i` and `kGF_[i]` to `prev_k + offs i`.
Returned are the mid-solve bindings and the final bindings:
`(yMid, kMid, yPost, kPost)`. -/
def implicitSolveBindings (n : ℕ) (offs : Fin (n + 2) → ℕ)
    (yb kb : Fin (n + 1) → ℕ) (yaddr kaddr : ℕ) :
    (Fin (n + 1) → ℕ) × (Fin (n + 1) → ℕ) × (Fin (n + 1) → ℕ) × (Fin (n + 1) → ℕ) :=
  let prev_y := yb 0
  let ybMid : Fin (n + 1) → ℕ := fun i => yaddr + offs i.castSucc
  let prev_k := kb 0
  let kbMid : Fin (n + 1) → ℕ := fun i => kaddr + offs i.castSucc
  let ybPost : Fin (n + 1) → ℕ := fun i => prev_y + offs i.castSucc
  let kbPost : Fin (n + 1) → ℕ := fun i => prev_k + offs i.castSucc
  (ybMid, kbMid, ybPost, kbPost)

/- ------------------------------------------------------------------ -/
/- Part 5: SetTimeStep across the per-species operators (C3)          -/
/- ------------------------------------------------------------------ -/

/-- The time-step-dependent data of the `DGTransportTDO::NLOperator` base
class: the stored `dt_` and the `alpha`/`beta` scalars of the five
`y1Coef_` sum coefficients (each `SumCoefficient(*yCoef_[i], *kCoef_[i])`,
constructed with `alpha = beta = 1`). -/
structure NLOperatorState where
  dt_ : ℝ
  y1Alpha : Fin 5 → ℝ
  y1Beta : Fin 5 → ℝ

/-- `DGTransportTDO::NLOperator::SetTimeStep` (transport_solver.cpp lines
1398-1413): stores `dt_ = dt` and calls `y1Coef_[i]->SetBeta(dt)` for each
of the five sum coefficients. -/
def NLOperatorState.setTimeStep (dt : ℝ) (st : NLOperatorState) :
    NLOperatorState :=
  { st with dt_ := dt, y1Beta := fun _ => dt }

/-- The value a `SumCoefficient` with the scalars of `st.y1Coef_[i]`
evaluates to at point values `y` (of `yGF_[i]`) and `k` (of `kGF_[i]`):
`alpha * y + beta * k`. -/
def NLOperatorState.y1Eval (st : NLOperatorState) (i : Fin 5) (y k : ℝ) : ℝ :=
  st.y1Alpha i * y + st.y1Beta i * k

/-- `NLOperator` scalars as set up by its constructor (lines 1294-1364):
`dt_ = 0`, and every `y1Coef_` with the `SumCoefficient` defaults
`alpha = beta = 1`. -/
def NLOperatorState.init : NLOperatorState :=
  { dt_ := 0, y1Alpha := fun _ => 1, y1Beta := fun _ => 1 }

/-- Time-step-dependent scalars of `DGTransportTDO::NeutralDensityOp`: the
`A` factors of the product coefficients `dtDCoef_`, `dtdSizdnnCoef_`,
`dtdSizdniCoef_` (all constructed with factor `0.0`). -/
structure NeutralDensityOpState extends NLOperatorState where
  dtDCoef : ℝ
  dtdSizdnnCoef : ℝ
  dtdSizdniCoef : ℝ

/-- `NeutralDensityOp::SetTimeStep` (lines 2217-2235): forwards to
`NLOperator::SetTimeStep` then sets the factors of `dtDCoef_`,
`dtdSizdnnCoef_` and `dtdSizdniCoef_` to `dt`. -/
def NeutralDensityOpState.setTimeStep (dt : ℝ) (st : NeutralDensityOpState) :
    NeutralDensityOpState :=
  { toNLOperatorState := st.toNLOperatorState.setTimeStep dt,
    dtDCoef := dt,
    dtdSizdnnCoef := dt,
    dtdSizdniCoef := dt }

/-- Time-step-dependent scalars of `DGTransportTDO::IonDensityOp`:
`dtDCoef_`, `dtViCoef_`, `negdtdSizdnnCoef_`, `negdtdSizdniCoef_` factors
(all constructed with `0.0`), and the time step stored inside the nested
advection coefficient `ViCoef_` (whose class is declared in
`transport_solver.hpp`; `SetTimeStep(dt)` forwards `dt` to it). -/
structure IonDensityOpState extends NLOperatorState where
  dtDCoef : ℝ
  ViCoef_dt : ℝ
  dtViCoef : ℝ
  negdtdSizdnnCoef : ℝ
  negdtdSizdniCoef : ℝ

/-- `IonDensityOp::SetTimeStep` (lines 2526-2548): forwards to
`NLOperator::SetTimeStep`, sets `dtDCoef_`, `ViCoef_`, `dtViCoef_` to `dt`
and the two negated source-derivative coefficients to `-dt`. -/
def IonDensityOpState.setTimeStep (dt : ℝ) (st : IonDensityOpState) :
    IonDensityOpState :=
  { toNLOperatorState := st.toNLOperatorState.setTimeStep dt,
    dtDCoef := dt,
    ViCoef_dt := dt,
    dtViCoef := dt,
    negdtdSizdnnCoef := -dt,
    negdtdSizdniCoef := -dt }

/-- Time-step-dependent scalars of `DGTransportTDO::IonMomentumOp`:
`dtEtaCoef_` and `dtminiViCoef_` factors (constructed with `0.0`) and the
time step stored inside the nested `miniViCoef_`. -/
structure IonMomentumOpState extends NLOperatorState where
  dtEtaCoef : ℝ
  miniViCoef_dt : ℝ
  dtminiViCoef : ℝ

/-- `IonMomentumOp::SetTimeStep` (lines 2754-2772): forwards to
`NLOperator::SetTimeStep` then sets `dtEtaCoef_`, `miniViCoef_` and
`dtminiViCoef_` to `dt`. -/
def IonMomentumOpState.setTimeStep (dt : ℝ) (st : IonMomentumOpState) :
    IonMomentumOpState :=
  { toNLOperatorState := st.toNLOperatorState.setTimeStep dt,
    dtEtaCoef := dt,
    miniViCoef_dt := dt,
    dtminiViCoef := dt }

/-- Time-step-dependent scalar of `DGTransportTDO::IonStaticPressureOp`:
the `dtChiCoef_` factor (constructed with `0.0`). -/
structure IonStaticPressureOpState extends NLOperatorState where
  dtChiCoef : ℝ

/-- `IonStaticPressureOp::SetTimeStep` (lines 2957-2974): forwards to
`NLOperator::SetTimeStep` then sets `dtChiCoef_` to `dt`. -/
def IonStaticPressureOpState.setTimeStep (dt : ℝ)
    (st : IonStaticPressureOpState) : IonStaticPressureOpState :=
  { toNLOperatorState := st.toNLOperatorState.setTimeStep dt,
    dtChiCoef := dt }

/-- Time-step-dependent scalars of `DGTransportTDO::ElectronStaticPressureOp`:
the `beta` of the vector sum coefficient `grad_Te1Coef_` (constructed with
`beta = 1`), and the factors of `dtChiCoef_` and `dtdChiGradTCoef_`
(constructed with `0.0`). -/
structure ElectronStaticPressureOpState extends NLOperatorState where
  grad_Te1Beta : ℝ
  dtChiCoef : ℝ
  dtdChiGradTCoef : ℝ

/-- `ElectronStaticPressureOp::SetTimeStep` (lines 3134-3154): forwards to
`NLOperator::SetTimeStep`, sets `grad_Te1Coef_`'s beta to `dt`, the factor
of `dtChiCoef_` to `dt`, and the factor of `dtdChiGradTCoef_` to `-dt`. -/
def ElectronStaticPressureOpState.setTimeStep (dt : ℝ)
    (st : ElectronStaticPressureOpState) : ElectronStaticPressureOpState :=
  { toNLOperatorState := st.toNLOperatorState.setTimeStep dt,
    grad_Te1Beta := dt,
    dtChiCoef := dt,
    dtdChiGradTCoef := -dt }

/-- The five per-species operators owned by `DGTransportTDO::CombinedOp`
(`op_[0]` .. `op_[4]`, constructor lines 1814-1915, with every bit of
`op_flag` set so that each physical operator is present). -/
structure CombinedOpState where
  op0 : NeutralDensityOpState
  op1 : IonDensityOpState
  op2 : IonMomentumOpState
  op3 : IonStaticPressureOpState
  op4 : ElectronStaticPressureOpState

/-- `DGTransportTDO::CombinedOp::SetTimeStep` (lines 1939-1949): forwards
`dt` to `op_[i]->SetTimeStep(dt)` for each `i < neq_ = 5`. -/
def CombinedOpState.setTimeStep (dt : ℝ) (st : CombinedOpState) :
    CombinedOpState :=
  { op0 := st.op0.setTimeStep dt,
    op1 := st.op1.setTimeStep dt,
    op2 := st.op2.setTimeStep dt,
    op3 := st.op3.setTimeStep dt,
    op4 := st.op4.setTimeStep dt }

/-- `CombinedOp` scalars as set up by the constructors: every `dt`-scaled
factor is `0.0`, every sum coefficient has `alpha = beta = 1`. -/
def CombinedOpState.init : CombinedOpState :=
  { op0 := { toNLOperatorState := NLOperatorState.init,
             dtDCoef := 0, dtdSizdnnCoef := 0, dtdSizdniCoef := 0 },
    op1 := { toNLOperatorState := NLOperatorState.init,
             dtDCoef := 0, ViCoef_dt := 0, dtViCoef := 0,
             negdtdSizdnnCoef := 0, negdtdSizdniCoef := 0 },
    op2 := { toNLOperatorState := NLOperatorState.init,
             dtEtaCoef := 0, miniViCoef_dt := 0, dtminiViCoef := 0 },
    op3 := { toNLOperatorState := NLOperatorState.init, dtChiCoef := 0 },
    op4 := { toNLOperatorState := NLOperatorState.init,
             grad_Te1Beta := 1, dtChiCoef := 0, dtdChiGradTCoef := 0 } }

/- ------------------------------------------------------------------ -/
/- Part 6: the Update methods (C8)                                    -/
/- ------------------------------------------------------------------ -/

/-- The data of `DGAdvectionDiffusionTDO` touched by its `Update` method:
operator height/width, an updated flag for each owned form object (`m_`
and `a_` are dereferenced unconditionally; `b_`, `s_`, `k_`, `q_exp_`,
`q_imp_` only when non-NULL, hence `Option`), the `rhs_` grid function,
and the sizes of the true-dof vectors `RHS_` and `X_`. -/
structure DGAdvDiffUpdState where
  height : ℕ
  width : ℕ
  m_up : Bool
  a_up : Bool
  b_up : Option Bool
  s_up : Option Bool
  k_up : Option Bool
  q_exp_up : Option Bool
  q_imp_up : Option Bool
  rhs_up : Bool
  RHS_size : ℕ
  X_size : ℕ

/-- `DGAdvectionDiffusionTDO::Update` (transport_solver.cpp lines 823-839):
sets `height = width = fes_->GetVSize()`, updates every owned form and the
`rhs_` grid function, and resizes `RHS_` and `X_` to
`fes_->GetTrueVSize()`. -/
def DGAdvDiffUpdState.update (vsize tvsize : ℕ) (st : DGAdvDiffUpdState) :
    DGAdvDiffUpdState :=
  { height := vsize, width := vsize,
    m_up := true, a_up := true,
    b_up := st.b_up.map fun _ => true,
    s_up := st.s_up.map fun _ => true,
    k_up := st.k_up.map fun _ => true,
    q_exp_up := st.q_exp_up.map fun _ => true,
    q_imp_up := st.q_imp_up.map fun _ => true,
    rhs_up := true,
    RHS_size := tvsize, X_size := tvsize }

/-- The data of one per-species operator (an `NLOperator` subclass) touched
by its `Update` method: height/width, updated flags for the five owned
gradient bilinear forms `blf_[i]` (`Option`: updated only when non-NULL),
for the optionally owned visualization grid functions (updated when
non-NULL), and for the unconditionally updated ones (the `Chi*GF_` pair of
the two static-pressure operators). -/
structure SpeciesOpUpdState where
  height : ℕ
  width : ℕ
  blf_up : Fin 5 → Option Bool
  gf_opt_up : List (Option Bool)
  gf_up : List Bool

/-- The per-species `Update` methods (`NLOperator::Update` lines 1777-1789
plus the overrides at lines 2268-2274, 2597-2604, 2826-2834, 2992-2998,
3172-3178, 3196-3199): set `height = fes_.GetVSize()`,
`width = 5 * fes_.GetVSize()`, update every non-NULL `blf_[i]`, and update
the owned grid functions. -/
def SpeciesOpUpdState.update (vsize : ℕ) (st : SpeciesOpUpdState) :
    SpeciesOpUpdState :=
  { height := vsize, width := 5 * vsize,
    blf_up := fun i => (st.blf_up i).map fun _ => true,
    gf_opt_up := st.gf_opt_up.map (Option.map fun _ => true),
    gf_up := st.gf_up.map fun _ => true }

/-- The data of `DGTransportTDO::CombinedOp` touched by `Update`: the five
per-species operators, the `offsets_` array (of size `neq_ + 1 = 6`) and
the operator height/width. -/
structure CombinedOpUpdState where
  ops : Fin 5 → SpeciesOpUpdState
  offsets : Fin 6 → ℕ
  height : ℕ
  width : ℕ

/-- `CombinedOp::updateOffsets` (lines 1925-1937): `offsets_[0] = 0`,
`offsets_[i+1] = op_[i]->Height()`, then `offsets_.PartialSum()`, so entry
`j` becomes the sum of the first `j` operator heights. -/
def combinedOffsets (h : Fin 5 → ℕ) : Fin 6 → ℕ :=
  fun j => ([h 0, h 1, h 2, h 3, h 4].take j.1).sum

/-- `DGTransportTDO::CombinedOp::Update` (lines 2018-2026): calls
`op_[i]->Update()` for each `i < neq_ = 5`, then `updateOffsets`, which sets
`height = width = offsets_[neq_]`. -/
def CombinedOpUpdState.update (vsize : ℕ) (st : CombinedOpUpdState) :
    CombinedOpUpdState :=
  let ops1 := fun i => (st.ops i).update vsize
  let offs1 := combinedOffsets fun i => (ops1 i).height
  { ops := ops1, offsets := offs1, height := offs1 5, width := offs1 5 }

/-- The data of `DGTransportTDO` touched by `Update`: height/width, updated
flags for the owned grid functions `BxyGF_`, `BzGF_`, the combined operator
`op_`, and a flag recording that the Newton solver was re-pointed at
`op_`. -/
structure DGTransportUpdState where
  height : ℕ
  width : ℕ
  BxyGF_up : Bool
  BzGF_up : Bool
  op : CombinedOpUpdState
  newton_op_set : Bool

/-- `DGTransportTDO::Update` (lines 1282-1292): sets
`height = width = ffes_.GetVSize()`, updates `BxyGF_` and `BzGF_`, calls
`op_.Update()` and re-sets the Newton solver operator. -/
def DGTransportUpdState.update (ffes_vsize vsize : ℕ)
    (st : DGTransportUpdState) : DGTransportUpdState :=
  { height := ffes_vsize, width := ffes_vsize,
    BxyGF_up := true, BzGF_up := true,
    op := st.op.update vsize,
    newton_op_set := true }

/- ------------------------------------------------------------------ -/
/- Part 7: Euler flux kernels and RiemannSolver (C4, C10)             -/
/- ------------------------------------------------------------------ -/

/-- A conserved-variable state vector of the DG Euler solver
(`transport_solver.cpp` lines 3475-3562): the layout of the flat
`state` Vector is `state(0) = den` (density), `state(1+d) = den_vel(d)`
(momentum, `d < dim`), `state(1+dim) = den_energy`. -/
structure EulerState (dim : ℕ) where
  den : ℝ
  den_vel : Fin dim → ℝ
  den_energy : ℝ

/-- A vector with the same component layout as a state, as produced by
`ComputeFluxDotN` (`fluxN(0)`, `fluxN(1+d)`, `fluxN(1+dim)`) and by each
column of `ComputeFlux`. -/
structure EulerFlux (dim : ℕ) where
  c0 : ℝ
  cm : Fin dim → ℝ
  cE : ℝ

/-- `ComputePressure` (lines 3475-3487):
`(gamma - 1) * (den_energy - 0.5 * (sum_d den_vel(d)^2) / den)`. -/
noncomputable def ComputePressure (dim : ℕ) (gamma : ℝ)
    (state : EulerState dim) : ℝ :=
  (gamma - 1) *
    (state.den_energy -
      0.5 * ((∑ d, state.den_vel d * state.den_vel d) / state.den))

/-- `ComputeFlux` (lines 3490-3516), column `d` of the flux matrix:
`flux(0,d) = den_vel(d)`, `flux(1+i,d) = den_vel(i)*den_vel(d)/den` plus
`pres` on the diagonal, `flux(1+dim,d) = den_vel(d) * H` with
`H = (den_energy + pres)/den`. -/
noncomputable def ComputeFlux (dim : ℕ) (gamma : ℝ) (state : EulerState dim)
    (d : Fin dim) : EulerFlux dim :=
  let pres := ComputePressure dim gamma state
  { c0 := state.den_vel d,
    cm := fun i => state.den_vel i * state.den_vel d / state.den +
                   (if i = d then pres else 0),
    cE := state.den_vel d * ((state.den_energy + pres) / state.den) }

/-- `ComputeFluxDotN` (lines 3519-3544): with
`den_velN = sum_d den_vel(d) * nor(d)`,
`fluxN(0) = den_velN`,
`fluxN(1+d) = den_velN * den_vel(d)/den + pres * nor(d)`,
`fluxN(1+dim) = den_velN * (den_energy + pres)/den`.  `nor` need not be a
unit normal. -/
noncomputable def ComputeFluxDotN (dim : ℕ) (gamma : ℝ)
    (state : EulerState dim) (nor : Fin dim → ℝ) : EulerFlux dim :=
  let pres := ComputePressure dim gamma state
  let den_velN := ∑ d, state.den_vel d * nor d
  { c0 := den_velN,
    cm := fun d => den_velN * state.den_vel d / state.den + pres * nor d,
    cE := den_velN * ((state.den_energy + pres) / state.den) }

/-- `ComputeMaxCharSpeed` (lines 3547-3562): with
`den_vel2 = (sum_d den_vel(d)^2)/den`, returns
`sqrt(den_vel2/den) + sqrt(gamma * pres / den)`. -/
noncomputable def ComputeMaxCharSpeed (dim : ℕ) (gamma : ℝ)
    (state : EulerState dim) : ℝ :=
  let den_vel2 := (∑ d, state.den_vel d * state.den_vel d) / state.den
  let pres := ComputePressure dim gamma state
  let sound := Real.sqrt (gamma * pres / state.den)
  let vel := Real.sqrt (den_vel2 / state.den)
  vel + sound

/-- `StateIsPhysical` (lines 3773-3819): rejects `den < 0`,
`den_energy <= 0` and `pres <= 0`. -/
noncomputable def StateIsPhysical (dim : ℕ) (gamma : ℝ)
    (state : EulerState dim) : Prop :=
  ¬ state.den < 0 ∧ ¬ state.den_energy ≤ 0 ∧
    ¬ ComputePressure dim gamma state ≤ 0

/-- `RiemannSolver::Eval` (lines 3596-3627): returns
`maxE = max(maxE1, maxE2)` and writes the flux
`flux(i) = 0.5*(flux1(i) + flux2(i)) - 0.5*maxE*(state2(i)-state1(i))*normag`
with `normag = sqrt(sum_d nor(d)^2)`. -/
noncomputable def RiemannSolverEval (dim : ℕ) (gamma : ℝ)
    (state1 state2 : EulerState dim) (nor : Fin dim → ℝ) :
    ℝ × EulerFlux dim :=
  let maxE1 := ComputeMaxCharSpeed dim gamma state1
  let maxE2 := ComputeMaxCharSpeed dim gamma state2
  let maxE := max maxE1 maxE2
  let flux1 := ComputeFluxDotN dim gamma state1 nor
  let flux2 := ComputeFluxDotN dim gamma state2 nor
  let normag := Real.sqrt (∑ d, nor d * nor d)
  (maxE,
   { c0 := 0.5 * (flux1.c0 + flux2.c0) -
           0.5 * maxE * (state2.den - state1.den) * normag,
     cm := fun d => 0.5 * (flux1.cm d + flux2.cm d) -
           0.5 * maxE * (state2.den_vel d - state1.den_vel d) * normag,
     cE := 0.5 * (flux1.cE + flux2.cE) -
           0.5 * maxE * (state2.den_energy - state1.den_energy) * normag })

/-- The Euclidean norm of a (face-normal) vector, used to state claims
about `RiemannSolver::Eval`. -/
noncomputable def euclNorm (dim : ℕ) (nor : Fin dim → ℝ) : ℝ :=
  Real.sqrt (∑ d, nor d ^ 2)

/-- Stated from the claim's wording, for comparison with
`ComputeMaxCharSpeed`: the characteristic speed `|v| + sqrt(gamma*p/rho)`,
where `v` is the velocity vector `den_vel/den` and `p` the pressure. -/
noncomputable def charSpeedViaVelocityNorm (dim : ℕ) (gamma : ℝ)
    (state : EulerState dim) : ℝ :=
  euclNorm dim (fun d => state.den_vel d / state.den) +
    Real.sqrt (gamma * ComputePressure dim gamma state / state.den)

/- ------------------------------------------------------------------ -/
/- Theorems                                                           -/
/- ------------------------------------------------------------------ -/

/-- C1: the preconditioner-type argument of the `ex1lor` driver is accepted
exactly for the four strings `gko:bj`, `gko:ilu`, `mfem:gs`, `none`
(selecting Ginkgo Block-Jacobi, Ginkgo ILU, MFEM Gauss-Seidel, or no LOR
preconditioner); any other string makes the program call
`mfem_error("Invalid Preconditioner specified")` and return, and this is
the only `mfem_error` call site in the codebase. -/
theorem ex1lor_pc_type_selection (s : String) :
    ((∃ r, ex1lorSelectPC s = .ok r) ↔
       s ∈ ["gko:bj", "gko:ilu", "mfem:gs", "none"]) ∧
    (s ∉ ["gko:bj", "gko:ilu", "mfem:gs", "none"] →
       ex1lorSelectPC s = .error "Invalid Preconditioner specified") ∧
    ex1lorSelectPC "gko:bj" = .ok (.GKO_BLOCK_JACOBI, true) ∧
    ex1lorSelectPC "gko:ilu" = .ok (.GKO_ILU, true) ∧
    ex1lorSelectPC "mfem:gs" = .ok (.MFEM_GS, true) ∧
    ex1lorSelectPC "none" = .ok (.NONE, false) ∧
    mfem_error_sites = ["Invalid Preconditioner specified"] := by
  refine ⟨?_, ?_, rfl, rfl, rfl, rfl, rfl⟩ <;>
  · unfold ex1lorSelectPC
    by_cases h1 : s = "gko:bj" <;> by_cases h2 : s = "gko:ilu" <;>
      by_cases h3 : s = "mfem:gs" <;> by_cases h4 : s = "none" <;>
      simp [h1, h2, h3, h4]

/-- Witness for C1 at the rejected string `"gko:foo"`. -/
theorem ex1lor_pc_type_selection_witness :
    ("gko:foo" ∉ ["gko:bj", "gko:ilu", "mfem:gs", "none"]) ∧
    ex1lorSelectPC "gko:foo" = .error "Invalid Preconditioner specified" :=
  ⟨by decide, (ex1lor_pc_type_selection "gko:foo").2.1 (by decide)⟩

/-- C2 counterexample: a run with the default (accepted) preconditioner
selection, which completes the solve with `pc = true`, writes neither
`refined.mesh` nor `sol.gf`: the `output_mesh` flag guarding step 13 is
hardcoded `false`. -/
theorem ex1lor_no_mesh_output :
    ex1lorOutputFiles ex1lor_output_mesh true = [] ∧
    "refined.mesh" ∉ ex1lorOutputFiles ex1lor_output_mesh true ∧
    "sol.gf" ∉ ex1lorOutputFiles ex1lor_output_mesh true := by
  refine ⟨rfl, ?_, ?_⟩ <;> simp [ex1lorOutputFiles, ex1lor_output_mesh]

/-- C2 (amended): the driver writes `refined.mesh` and `sol.gf` only when
the `output_mesh` flag is set, but that flag is hardcoded `false` and no
registered command-line option is bound to it, so no run writes these
files; when visualization is enabled the solution is still sent over a
socket stream to a GLVis server at `localhost:19916`. -/
theorem ex1lor_output_behavior (pc visualization : Bool) :
    ex1lorOutputFiles ex1lor_output_mesh pc = [] ∧
    "refined.mesh" ∈ ex1lorOutputFiles true pc ∧
    "sol.gf" ∈ ex1lorOutputFiles true pc ∧
    ex1lor_output_mesh = false ∧
    (ex1lorOptions.all fun p => p.2 ≠ "output_mesh") = true ∧
    (visualization = true ↔
       ex1lorVisSocket visualization = some ("localhost", 19916)) := by
  cases pc <;> cases visualization <;> decide

/-- C3 counterexample: `CombinedOp::SetTimeStep(1.0)` from the freshly
constructed state leaves the dt-scaled product coefficient
`dtdChiGradTCoef_` of `ElectronStaticPressureOp` (`op_[4]`) with scalar
factor `-1`, not `1`. -/
theorem combinedOp_setTimeStep_neg_factor :
    (CombinedOpState.setTimeStep 1 CombinedOpState.init).op4.dtdChiGradTCoef
        = -1 ∧
    (CombinedOpState.setTimeStep 1 CombinedOpState.init).op4.dtdChiGradTCoef
        ≠ 1 := by
  constructor
  · rfl
  · show (-1 : ℝ) ≠ 1
    norm_num

/-- C3 (amended): `CombinedOp::SetTimeStep(dt)` forwards `dt` to each of the
five per-species operators; each call stores `dt` in the operator's `dt_`,
sets `dt` as the beta of all five `y1Coef_` sum coefficients (so the
evaluated state is `alpha * y0 + dt * k`, with `alpha = 1` as constructed),
and rescales every dt-scaled product coefficient so that its factor is `dt`
except the negated source-derivative coefficients `negdtdSizdnnCoef_`,
`negdtdSizdniCoef_` of `IonDensityOp` and the coefficient
`dtdChiGradTCoef_` of `ElectronStaticPressureOp`, which are set to `-dt`. -/
theorem combinedOp_setTimeStep_characterization (dt : ℝ)
    (st : CombinedOpState) :
    CombinedOpState.setTimeStep dt st =
      { op0 := { dt_ := dt, y1Alpha := st.op0.y1Alpha, y1Beta := fun _ => dt,
                 dtDCoef := dt, dtdSizdnnCoef := dt, dtdSizdniCoef := dt },
        op1 := { dt_ := dt, y1Alpha := st.op1.y1Alpha, y1Beta := fun _ => dt,
                 dtDCoef := dt, ViCoef_dt := dt, dtViCoef := dt,
                 negdtdSizdnnCoef := -dt, negdtdSizdniCoef := -dt },
        op2 := { dt_ := dt, y1Alpha := st.op2.y1Alpha, y1Beta := fun _ => dt,
                 dtEtaCoef := dt, miniViCoef_dt := dt, dtminiViCoef := dt },
        op3 := { dt_ := dt, y1Alpha := st.op3.y1Alpha, y1Beta := fun _ => dt,
                 dtChiCoef := dt },
        op4 := { dt_ := dt, y1Alpha := st.op4.y1Alpha, y1Beta := fun _ => dt,
                 grad_Te1Beta := dt, dtChiCoef := dt,
                 dtdChiGradTCoef := -dt } } ∧
    (∀ i y k,
       ((CombinedOpState.setTimeStep dt st).op0.toNLOperatorState.y1Eval i y k)
         = st.op0.y1Alpha i * y + dt * k) :=
  ⟨rfl, fun _ _ _ => rfl⟩

/-- C7: the `MFEM_VERIFY(imex_, ...)` guard of
`DGAdvectionDiffusionTDO::ExplicitMult` passes exactly when the operator
was constructed with `imex = true`; when `imex_` is false it fails with the
message `Unexpected call to ExplicitMult for non-IMEX method!`, and under
`imex_ = true` the error branch is unreachable. -/
theorem explicitMult_imex_guard :
    (∀ imex_ : Bool, ExplicitMultGuard imex_ = .ok () ↔ imex_ = true) ∧
    ExplicitMultGuard true = .ok () ∧
    ExplicitMultGuard false =
      .error "Unexpected call to ExplicitMult for non-IMEX method!" := by
  refine ⟨fun b => ?_, rfl, rfl⟩
  cases b <;> simp [ExplicitMultGuard]

/-- C9: for any preconditioner type other than `"gko:bj"` the Block-Jacobi
tuning parameters `pc_storage_opt` (`-pc-so`), `pc_acc` (`-pc-acc`) and
`pc_max_bs` (`-pc-mbs`) have no effect on the run: they are read only when
constructing the `GinkgoJacobiPreconditioner` in the `"gko:bj"` branch. -/
theorem ex1lor_bj_params_noninterference (pc_type : String)
    (h : pc_type ≠ "gko:bj") (so1 so2 : String) (acc1 acc2 : ℚ)
    (mbs1 mbs2 : ℤ) (vis : Bool) :
    ex1lorRun pc_type so1 acc1 mbs1 vis = ex1lorRun pc_type so2 acc2 mbs2 vis := by
  unfold ex1lorRun ex1lorSelectPC
  rw [if_neg h]
  by_cases h2 : pc_type = "gko:ilu" <;> by_cases h3 : pc_type = "mfem:gs" <;>
    by_cases h4 : pc_type = "none" <;> simp [h2, h3, h4]

/-- Witness for C9 at `pc_type = "mfem:gs"` and two distinct parameter
triples. -/
theorem ex1lor_bj_params_noninterference_witness :
    ("mfem:gs" : String) ≠ "gko:bj" ∧
    ex1lorRun "mfem:gs" "auto" (1/10) 32 true =
      ex1lorRun "mfem:gs" "none" (1/2) 16 true :=
  ⟨by decide,
   ex1lor_bj_params_noninterference "mfem:gs" (by decide) "auto" "none"
     (1/10) (1/2) 32 16 true⟩

/-- C8: after every `Update`, height and width agree and match the current
space size: `DGAdvectionDiffusionTDO::Update` sets
`height = width = fes_->GetVSize()` and resizes `RHS_`/`X_` to
`fes_->GetTrueVSize()`; `DGTransportTDO::Update` sets
`height = width = ffes_.GetVSize()`; `CombinedOp::Update` updates the five
per-species operators and sets `height = width = offsets_[neq_]`, the
partial sum of their heights; and every owned form and grid function has
had its own `Update` called. -/
theorem update_height_width (vsize tvsize ffes_vsize : ℕ)
    (stA : DGAdvDiffUpdState) (stT : DGTransportUpdState) :
    (stA.update vsize tvsize).height = vsize ∧
    (stA.update vsize tvsize).width = vsize ∧
    (stA.update vsize tvsize).RHS_size = tvsize ∧
    (stA.update vsize tvsize).X_size = tvsize ∧
    (stA.update vsize tvsize).m_up = true ∧
    (stA.update vsize tvsize).a_up = true ∧
    (stA.update vsize tvsize).rhs_up = true ∧
    (stA.update vsize tvsize).b_up = (stA.b_up.map fun _ => true) ∧
    (stA.update vsize tvsize).s_up = (stA.s_up.map fun _ => true) ∧
    (stA.update vsize tvsize).k_up = (stA.k_up.map fun _ => true) ∧
    (stA.update vsize tvsize).q_exp_up = (stA.q_exp_up.map fun _ => true) ∧
    (stA.update vsize tvsize).q_imp_up = (stA.q_imp_up.map fun _ => true) ∧
    (stT.update ffes_vsize vsize).height = ffes_vsize ∧
    (stT.update ffes_vsize vsize).width = ffes_vsize ∧
    (stT.update ffes_vsize vsize).BxyGF_up = true ∧
    (stT.update ffes_vsize vsize).BzGF_up = true ∧
    (stT.update ffes_vsize vsize).op = stT.op.update vsize ∧
    (stT.op.update vsize).height = (stT.op.update vsize).offsets 5 ∧
    (stT.op.update vsize).width = (stT.op.update vsize).offsets 5 ∧
    (stT.op.update vsize).offsets 5 =
      ((stT.op.update vsize).ops 0).height +
        (((stT.op.update vsize).ops 1).height +
          (((stT.op.update vsize).ops 2).height +
            (((stT.op.update vsize).ops 3).height +
              ((stT.op.update vsize).ops 4).height))) ∧
    (stT.op.update vsize).offsets 5 = 5 * vsize ∧
    (∀ i, (stT.op.update vsize).ops i = (stT.op.ops i).update vsize) ∧
    (∀ i, ((stT.op.update vsize).ops i).height = vsize ∧
          ((stT.op.update vsize).ops i).width = 5 * vsize ∧
          ((stT.op.update vsize).ops i).blf_up =
            (fun j => ((stT.op.ops i).blf_up j).map fun _ => true) ∧
          ((stT.op.update vsize).ops i).gf_opt_up =
            (stT.op.ops i).gf_opt_up.map (Option.map fun _ => true) ∧
          ((stT.op.update vsize).ops i).gf_up =
            (stT.op.ops i).gf_up.map fun _ => true) := by
  refine ⟨rfl, rfl, rfl, rfl, rfl, rfl, rfl, rfl, rfl, rfl, rfl, rfl, rfl,
          rfl, rfl, rfl, rfl, rfl, rfl, rfl, ?_, fun i => rfl,
          fun i => ⟨rfl, rfl, rfl, rfl, rfl⟩⟩
  show ([vsize, vsize, vsize, vsize, vsize].take 5).sum = 5 * vsize
  simp
  ring

/-- C5: the dt-dependent objects are rebuilt exactly on a time-step-size
change: `DGAdvectionDiffusionTDO::ImplicitSolve` updates `dt_` and the
factors of `dtdCoef_`, `dtDCoef_`, `dtNegVCoef_` if and only if
`|dt - dt_| > 1e-4 * dt_`, and `DiffusionTDO::initSolver` (here on an
operator whose `amg_` and `solver_` already exist, so that `rebuilt` is
meaningful) rebuilds `dt_`, `dtNuCoef_`, `M_`, the AMG preconditioner and
the linear solver if and only if `|dt - dt_| > 1e-4 * dt`; within the
tolerance everything stays unchanged. -/
theorem dt_rebuild_iff_tolerance (dt dg_sigma : ℝ)
    (stA : DGAdvDiffCoefState) (stD : DiffusionTDOState)
    (ha : stD.amg.isSome) (hs : stD.solver.isSome) :
    ((|dt - stA.dt_| > 1e-4 * stA.dt_ →
        stA.implicitSolveUpdate dt =
          { dt_ := dt, dtdCoef := stA.dtdCoef.map fun _ => dt,
            dtDCoef := stA.dtDCoef.map fun _ => dt,
            dtNegVCoef := stA.dtNegVCoef.map fun _ => dt }) ∧
     (¬ |dt - stA.dt_| > 1e-4 * stA.dt_ →
        stA.implicitSolveUpdate dt = stA)) ∧
    ((|dt - stD.dt_| > 1e-4 * dt →
        stD.initSolver dg_sigma dt =
          { dt_ := dt, dtNuCoef := dt, M := some (stD.M.getD 0 + 1),
            amg := some (stD.M.getD 0 + 1),
            solver := some
              ((if dg_sigma = -1.0 then SolverKind.pcg else SolverKind.gmres),
               stD.M.getD 0 + 1) }) ∧
     (¬ |dt - stD.dt_| > 1e-4 * dt →
        stD.initSolver dg_sigma dt = stD)) := by
  have ha' : ¬ stD.amg = none := Option.isSome_iff_ne_none.mp ha
  have hs' : ¬ stD.solver = none := Option.isSome_iff_ne_none.mp hs
  refine ⟨⟨fun h => ?_, fun h => ?_⟩, fun h => ?_, fun h => ?_⟩
  · unfold DGAdvDiffCoefState.implicitSolveUpdate
    rw [if_pos h]
  · unfold DGAdvDiffCoefState.implicitSolveUpdate
    rw [if_neg h]
  · simp only [DiffusionTDOState.initSolver]
    rw [if_pos h, if_pos (Or.inr h), if_pos (Or.inr h)]
    rfl
  · simp only [DiffusionTDOState.initSolver]
    rw [if_neg h, if_neg (not_or.mpr ⟨ha', h⟩), if_neg (not_or.mpr ⟨hs', h⟩)]

/-- Witness for C5: a state outside the tolerance (stored step 1, new step
2) with existing `amg_` and `solver_`; every coefficient is rescaled to 2
and the `DiffusionTDO` objects are rebuilt to generation 4. -/
theorem dt_rebuild_iff_tolerance_witness :
    (Option.isSome (some 3 : Option Nat)) ∧
    (Option.isSome (some (SolverKind.pcg, 3) : Option (SolverKind × Nat))) ∧
    |(2 : ℝ) - 1| > 1e-4 * 1 ∧
    |(2 : ℝ) - 1| > 1e-4 * 2 ∧
    DGAdvDiffCoefState.implicitSolveUpdate 2 ⟨1, some 5, none, some 7⟩ =
      { dt_ := 2, dtdCoef := (some 5 : Option ℝ).map fun _ => 2,
        dtDCoef := (none : Option ℝ).map fun _ => 2,
        dtNegVCoef := (some 7 : Option ℝ).map fun _ => 2 } ∧
    DiffusionTDOState.initSolver 0 2
        ⟨1, 1, some 3, some 3, some (SolverKind.pcg, 3)⟩ =
      { dt_ := 2, dtNuCoef := 2, M := some 4, amg := some 4,
        solver := some
          ((if (0 : ℝ) = -1.0 then SolverKind.pcg else SolverKind.gmres),
           4) } := by
  have hone : |(2 : ℝ) - 1| = 1 := by
    rw [show (2 : ℝ) - 1 = 1 by norm_num, abs_one]
  have hA : |(2 : ℝ) - 1| > 1e-4 * 1 := by rw [hone]; norm_num
  have hD : |(2 : ℝ) - 1| > 1e-4 * 2 := by rw [hone]; norm_num
  have happ := dt_rebuild_iff_tolerance 2 0 ⟨1, some 5, none, some 7⟩
    ⟨1, 1, some 3, some 3, some (SolverKind.pcg, 3)⟩ rfl rfl
  exact ⟨rfl, rfl, hA, hD, happ.1.1 hA, happ.2.1 hD⟩

/-- C6: `DGTransportTDO::ImplicitSolve(dt, y, k)` temporarily re-points the
`yGF_` and `kGF_` grid functions at the blocks of the argument vectors
(`yaddr + offsets_[i]`, `kaddr + offsets_[i]`) for the duration of the
Newton solve, and on return every `yGF_[i]` and `kGF_[i]` again references
exactly the data array it referenced on entry, `prev_y + offsets_[i]` and
`prev_k + offsets_[i]`; the caller-visible bindings are unchanged. -/
theorem implicitSolve_bindings_restored (n : ℕ) (offs : Fin (n + 2) → ℕ)
    (py pk yaddr kaddr : ℕ) (yb kb : Fin (n + 1) → ℕ)
    (h0 : offs 0 = 0)
    (hy : ∀ i, yb i = py + offs i.castSucc)
    (hk : ∀ i, kb i = pk + offs i.castSucc) :
    (∀ i, (implicitSolveBindings n offs yb kb yaddr kaddr).1 i =
            yaddr + offs i.castSucc) ∧
    (∀ i, (implicitSolveBindings n offs yb kb yaddr kaddr).2.1 i =
            kaddr + offs i.castSucc) ∧
    (∀ i, (implicitSolveBindings n offs yb kb yaddr kaddr).2.2.1 i = yb i) ∧
    (∀ i, (implicitSolveBindings n offs yb kb yaddr kaddr).2.2.2 i = kb i) := by
  refine ⟨fun i => rfl, fun i => rfl, fun i => ?_, fun i => ?_⟩
  · show yb 0 + offs i.castSucc = yb i
    rw [hy 0, hy i, Fin.castSucc_zero, h0, Nat.add_zero]
  · show kb 0 + offs i.castSucc = kb i
    rw [hk 0, hk i, Fin.castSucc_zero, h0, Nat.add_zero]

/-- Witness for C6: one grid function, offsets `[0, 4]`, entry bindings in
block layout at bases 10 and 20, arguments at 30 and 40. -/
theorem implicitSolve_bindings_restored_witness :
    ((![0, 4] : Fin 2 → ℕ) 0 = 0) ∧
    (∀ i : Fin 1, (![10] : Fin 1 → ℕ) i = 10 + (![0, 4]) i.castSucc) ∧
    (∀ i : Fin 1, (![20] : Fin 1 → ℕ) i = 20 + (![0, 4]) i.castSucc) ∧
    ((∀ i, (implicitSolveBindings 0 ![0, 4] ![10] ![20] 30 40).1 i =
            30 + (![0, 4]) i.castSucc) ∧
     (∀ i, (implicitSolveBindings 0 ![0, 4] ![10] ![20] 30 40).2.1 i =
            40 + (![0, 4]) i.castSucc) ∧
     (∀ i, (implicitSolveBindings 0 ![0, 4] ![10] ![20] 30 40).2.2.1 i =
            (![10] : Fin 1 → ℕ) i) ∧
     (∀ i, (implicitSolveBindings 0 ![0, 4] ![10] ![20] 30 40).2.2.2 i =
            (![20] : Fin 1 → ℕ) i)) :=
  ⟨by decide, by decide, by decide,
   implicitSolve_bindings_restored 0 ![0, 4] 10 20 30 40 ![10] ![20]
     (by decide) (by decide) (by decide)⟩

/-- The velocity magnitude computed by `ComputeMaxCharSpeed` as
`sqrt(den_vel2/den)` with `den_vel2 = (sum_d den_vel(d)^2)/den` equals the
Euclidean norm of the velocity vector `den_vel/den`. -/
theorem sqrt_velocity_norm (dim : ℕ) (s : EulerState dim) :
    Real.sqrt ((∑ d, s.den_vel d * s.den_vel d) / s.den / s.den) =
      euclNorm dim fun d => s.den_vel d / s.den := by
  unfold euclNorm
  congr 1
  rw [div_div, Finset.sum_div]
  refine Finset.sum_congr rfl fun d _ => ?_
  rw [pow_two, div_mul_div_comm]

/-- `ComputeMaxCharSpeed` is the characteristic speed
`|v| + sqrt(gamma*p/rho)` of the claim. -/
theorem computeMaxCharSpeed_eq (dim : ℕ) (γ : ℝ) (s : EulerState dim) :
    ComputeMaxCharSpeed dim γ s = charSpeedViaVelocityNorm dim γ s := by
  simp only [ComputeMaxCharSpeed, charSpeedViaVelocityNorm]
  rw [← sqrt_velocity_norm]

/-- The `normag` computed by `RiemannSolver::Eval` is the Euclidean norm of
the face normal. -/
theorem sqrt_normag_eq (dim : ℕ) (nor : Fin dim → ℝ) :
    Real.sqrt (∑ d, nor d * nor d) = euclNorm dim nor := by
  unfold euclNorm
  congr 1
  exact Finset.sum_congr rfl fun d _ => (pow_two _).symm

/-- `ComputeFluxDotN` is the contraction of the Euler flux matrix
`ComputeFlux` with the normal, componentwise. -/
theorem fluxDotN_contraction (dim : ℕ) (γ : ℝ) (s : EulerState dim)
    (nor : Fin dim → ℝ) :
    (ComputeFluxDotN dim γ s nor).c0 =
        (∑ d, (ComputeFlux dim γ s d).c0 * nor d) ∧
    (∀ i, (ComputeFluxDotN dim γ s nor).cm i =
        (∑ d, (ComputeFlux dim γ s d).cm i * nor d)) ∧
    (ComputeFluxDotN dim γ s nor).cE =
        (∑ d, (ComputeFlux dim γ s d).cE * nor d) := by
  refine ⟨rfl, fun i => ?_, ?_⟩
  · simp only [ComputeFluxDotN, ComputeFlux]
    have expand : ∀ d : Fin dim,
        (s.den_vel i * s.den_vel d / s.den +
            (if i = d then ComputePressure dim γ s else 0)) * nor d
          = s.den_vel d * nor d * s.den_vel i / s.den +
            (if i = d then ComputePressure dim γ s * nor d else 0) := by
      intro d; split_ifs <;> ring
    rw [Finset.sum_congr rfl fun d _ => expand d, Finset.sum_add_distrib]
    congr 1
    · rw [← Finset.sum_div, ← Finset.sum_mul]
    · simp [Finset.sum_ite_eq, Finset.mem_univ]
  · simp only [ComputeFluxDotN, ComputeFlux]
    have expand : ∀ d : Fin dim,
        s.den_vel d * ((s.den_energy + ComputePressure dim γ s) / s.den) * nor d
          = s.den_vel d * nor d *
              ((s.den_energy + ComputePressure dim γ s) / s.den) := by
      intro d; ring
    rw [Finset.sum_congr rfl fun d _ => expand d, ← Finset.sum_mul]

/-- C4: for physical states (density, energy, pressure positive, which in
particular pass `StateIsPhysical`), `RiemannSolver::Eval` returns the
maximum over the two states of the characteristic speed
`|v| + sqrt(gamma*p/rho)` and writes the local Lax-Friedrichs flux
`flux(i) = 0.5*(F(state1).nor + F(state2).nor)(i)
           - 0.5*maxE*(state2(i)-state1(i))*||nor||`,
with `F(s).nor` the Euler flux contracted with `nor` and `||nor||` the
Euclidean norm of the (not necessarily unit) normal. -/
theorem riemannSolver_eval_lax_friedrichs (dim : ℕ) (γ : ℝ)
    (s1 s2 : EulerState dim) (nor : Fin dim → ℝ)
    (hd1 : 0 < s1.den) (he1 : 0 < s1.den_energy)
    (hp1 : 0 < ComputePressure dim γ s1)
    (hd2 : 0 < s2.den) (he2 : 0 < s2.den_energy)
    (hp2 : 0 < ComputePressure dim γ s2) :
    StateIsPhysical dim γ s1 ∧ StateIsPhysical dim γ s2 ∧
    (RiemannSolverEval dim γ s1 s2 nor).1 =
      max (charSpeedViaVelocityNorm dim γ s1)
          (charSpeedViaVelocityNorm dim γ s2) ∧
    (RiemannSolverEval dim γ s1 s2 nor).2.c0 =
      0.5 * ((∑ d, (ComputeFlux dim γ s1 d).c0 * nor d) +
             (∑ d, (ComputeFlux dim γ s2 d).c0 * nor d)) -
        0.5 * (RiemannSolverEval dim γ s1 s2 nor).1 *
          (s2.den - s1.den) * euclNorm dim nor ∧
    (∀ i, (RiemannSolverEval dim γ s1 s2 nor).2.cm i =
      0.5 * ((∑ d, (ComputeFlux dim γ s1 d).cm i * nor d) +
             (∑ d, (ComputeFlux dim γ s2 d).cm i * nor d)) -
        0.5 * (RiemannSolverEval dim γ s1 s2 nor).1 *
          (s2.den_vel i - s1.den_vel i) * euclNorm dim nor) ∧
    (RiemannSolverEval dim γ s1 s2 nor).2.cE =
      0.5 * ((∑ d, (ComputeFlux dim γ s1 d).cE * nor d) +
             (∑ d, (ComputeFlux dim γ s2 d).cE * nor d)) -
        0.5 * (RiemannSolverEval dim γ s1 s2 nor).1 *
          (s2.den_energy - s1.den_energy) * euclNorm dim nor := by
  have c1 := fluxDotN_contraction dim γ s1 nor
  have c2 := fluxDotN_contraction dim γ s2 nor
  refine ⟨⟨not_lt.mpr hd1.le, not_le.mpr he1, not_le.mpr hp1⟩,
          ⟨not_lt.mpr hd2.le, not_le.mpr he2, not_le.mpr hp2⟩,
          ?_, ?_, fun i => ?_, ?_⟩
  · simp only [RiemannSolverEval]
    rw [computeMaxCharSpeed_eq dim γ s1, computeMaxCharSpeed_eq dim γ s2]
  · simp only [RiemannSolverEval]
    rw [c1.1, c2.1, sqrt_normag_eq]
  · simp only [RiemannSolverEval]
    rw [c1.2.1 i, c2.2.1 i, sqrt_normag_eq]
  · simp only [RiemannSolverEval]
    rw [c1.2.2, c2.2.2, sqrt_normag_eq]

/-- Witness for C4: one-dimensional states at rest with density 1, energies
1 and 2, `gamma = 2`, normal `(1)`. -/
theorem riemannSolver_eval_lax_friedrichs_witness :
    (0 : ℝ) < 1 ∧ (0 : ℝ) < 2 ∧
    (0 : ℝ) < ComputePressure 1 2 ⟨1, ![0], 1⟩ ∧
    (0 : ℝ) < ComputePressure 1 2 ⟨1, ![0], 2⟩ ∧
    (RiemannSolverEval 1 2 ⟨1, ![0], 1⟩ ⟨1, ![0], 2⟩ ![1]).1 =
      max (charSpeedViaVelocityNorm 1 2 ⟨1, ![0], 1⟩)
          (charSpeedViaVelocityNorm 1 2 ⟨1, ![0], 2⟩) := by
  have hp1 : (0 : ℝ) < ComputePressure 1 2 ⟨1, ![0], 1⟩ := by
    norm_num [ComputePressure, Fin.sum_univ_one]
  have hp2 : (0 : ℝ) < ComputePressure 1 2 ⟨1, ![0], 2⟩ := by
    norm_num [ComputePressure, Fin.sum_univ_one]
  refine ⟨by norm_num, by norm_num, hp1, hp2, ?_⟩
  exact (riemannSolver_eval_lax_friedrichs 1 2 ⟨1, ![0], 1⟩ ⟨1, ![0], 2⟩ ![1]
    (by norm_num) (by norm_num) hp1 (by norm_num) (by norm_num) hp2).2.2.1

/-- C10: the Riemann flux is conservative across a face: swapping the two
states and negating the (not necessarily unit) normal returns the same wave
speed and the negated flux, because `ComputeFluxDotN` is linear in `nor`,
the maximum characteristic speed does not depend on `nor`, and
`||-nor|| = ||nor||`. -/
theorem riemann_flux_conservative (dim : ℕ) (γ : ℝ)
    (s1 s2 : EulerState dim) (nor : Fin dim → ℝ) :
    (RiemannSolverEval dim γ s2 s1 (fun d => -nor d)).1 =
      (RiemannSolverEval dim γ s1 s2 nor).1 ∧
    (RiemannSolverEval dim γ s2 s1 (fun d => -nor d)).2.c0 =
      -(RiemannSolverEval dim γ s1 s2 nor).2.c0 ∧
    (∀ i, (RiemannSolverEval dim γ s2 s1 (fun d => -nor d)).2.cm i =
      -(RiemannSolverEval dim γ s1 s2 nor).2.cm i) ∧
    (RiemannSolverEval dim γ s2 s1 (fun d => -nor d)).2.cE =
      -(RiemannSolverEval dim γ s1 s2 nor).2.cE := by
  have hdvn : ∀ s : EulerState dim,
      (∑ d, s.den_vel d * -nor d) = -(∑ d, s.den_vel d * nor d) := by
    intro s
    simp [mul_neg]
  have hnm : (∑ d, -nor d * -nor d) = ∑ d, nor d * nor d := by
    simp [neg_mul_neg]
  have hmax : max (ComputeMaxCharSpeed dim γ s2) (ComputeMaxCharSpeed dim γ s1)
      = max (ComputeMaxCharSpeed dim γ s1) (ComputeMaxCharSpeed dim γ s2) :=
    max_comm _ _
  refine ⟨?_, ?_, fun i => ?_, ?_⟩
  · simp only [RiemannSolverEval]
    exact hmax
  all_goals
  · simp only [RiemannSolverEval, ComputeFluxDotN]
    rw [hdvn s1, hdvn s2, hnm, hmax]
    ring
